import Mathlib

/-!
Shallow embedding of the DNS-over-QUIC transport of `dnscore`
(`doquic.go`): the functions `sendQueryQUIC`, `recvResponseQUIC` and
`queryQUIC` on `Transport`.

External calls (UDP resolution, socket binding, QUIC dial, stream
operations) are modelled by an `Env` record holding the outcome each call
would produce, and every function additionally returns the list of
external actions it performed, in order, as a `List Event`.  The caller's
query message is mutable in Go (`query.Id = 0`), so each function also
returns the final state of the message.
-/

deriving instance DecidableEq for Except

namespace DnsCore

/-- Error values returned by the external calls and by the DNS library. -/
inductive GoError where
  | errResolve
  | errListen
  | errMissingPort
  | errTooManyColons
  | errMissingBracket
  | errUnexpectedBracket
  | errPack
  | errUnpack
  | errDial
  | errOpenStream
  | errWrite
  | errClose
  | errRead
  | errCanceled
  | errDeadlineExceeded
  deriving DecidableEq, Repr

/-- A resolved UDP endpoint (result of `net.ResolveUDPAddr`). -/
structure UDPAddr where
  ip : String
  port : Nat
  deriving DecidableEq, Repr

/-- An opened QUIC stream handle (result of `quicConn.OpenStream`). -/
structure QUICStream where
  id : Nat
  deriving DecidableEq, Repr

/-- TLS client parameters (the fields of `tls.Config` the code sets). -/
structure TLSConfig where
  NextProtos : List String
  ServerName : String
  deriving DecidableEq, Repr

/-- The `ServerAddr` abstraction: a textual `host:port` address. -/
structure ServerAddr where
  Address : String
  deriving DecidableEq, Repr

/-- The caller's context: `ctx.Err()` and `ctx.Deadline()`.  Time is a
natural number; `deadline = none` models `ok == false`. -/
structure Context where
  err : Option GoError
  deadline : Option Nat
  deriving DecidableEq, Repr

/-- A DNS message as the code uses it: the 16-bit `Id` header field, the
remaining wire bytes abstracted as `body`, and whether the external
library's `Pack` succeeds on this message. -/
structure DNSMsg where
  Id : Nat
  body : List Nat
  packOk : Bool
  deriving DecidableEq, Repr

/-- Models the external DNS library's `Pack`: the wire format starts with
the 2-octet big-endian message ID, followed by the rest of the message. -/
def DNSMsg.pack (m : DNSMsg) : Except GoError (List Nat) :=
  if m.packOk then
    .ok ((m.Id % 65536) / 256 :: m.Id % 256 :: m.body)
  else
    .error .errPack

/-- Models the external DNS library's `Unpack` for the DNS header: it
needs at least the 12 header octets and reads the message ID from the
first two octets, big-endian. -/
def unpackHeader (bs : List Nat) : Except GoError DNSMsg :=
  if bs.length < 12 then .error .errUnpack
  else .ok { Id := bs.getD 0 0 * 256 + bs.getD 1 0, body := bs.drop 2, packOk := true }

/-- Outcomes of the external calls made during one query, fixed up front:
a pure oracle for the network. -/
structure Env where
  resolveUDPAddr : Except GoError UDPAddr
  listenUDP : Except GoError Unit
  dial : Except GoError Unit
  openStream : Except GoError QUICStream
  writeRes : Nat × Option GoError
  closeErr : Option GoError
  streamData : List Nat
  readErr : Option GoError
  now : Nat
  deriving DecidableEq, Repr

/-- External actions, in the order the code performs them. -/
inductive Event where
  | resolveUDPAddr (network : String) (address : String)
  | listenUDP
  | setDeadline (d : Nat)
  | logQuery (raw : List Nat)
  | dial (target : UDPAddr) (tls : TLSConfig)
  | openStream
  | streamWrite (data : List Nat)
  | streamClose
  | readFull (capacity : Nat)
  | udpConnClose
  | quicConnClose
  deriving DecidableEq, Repr

/-- Whether an event is the QUIC dial. -/
def Event.isDial : Event → Bool
  | .dial _ _ => true
  | _ => false

/-- Whether an event is a network step in the sense of the spec: address
resolution, socket creation, dial, or stream I/O. -/
def Event.isNetwork : Event → Bool
  | .resolveUDPAddr _ _ => true
  | .listenUDP => true
  | .dial _ _ => true
  | .openStream => true
  | .streamWrite _ => true
  | .streamClose => true
  | .readFull _ => true
  | _ => false

/-- Whether an event touches the QUIC connection or its stream: dial,
stream open, stream write, stream close, or stream read. -/
def Event.isQUICNetwork : Event → Bool
  | .dial _ _ => true
  | .openStream => true
  | .streamWrite _ => true
  | .streamClose => true
  | .readFull _ => true
  | _ => false

/-- First index of character `c` in `cs` (Go `strings.IndexByte`). -/
def firstIdxOf (c : Char) (cs : List Char) : Option Nat :=
  cs.findIdx? (fun x => x == c)

/-- Last index of character `c` in `cs` (Go `last(s, c)`). -/
def lastIdxOf (c : Char) (cs : List Char) : Option Nat :=
  match (cs.reverse).findIdx? (fun x => x == c) with
  | none => none
  | some j => some (cs.length - 1 - j)

/-- Models the Go standard library's `net.SplitHostPort`: split a
`host:port` (or `[host]:port`) string at the last colon, validating
brackets and rejecting stray colons. -/
def splitHostPort (hostport : String) : Except GoError (String × String) :=
  let cs := hostport.toList
  match lastIdxOf ':' cs with
  | none => .error .errMissingPort
  | some i =>
    if cs.getD 0 ' ' = '[' then
      match firstIdxOf ']' cs with
      | none => .error .errMissingBracket
      | some endi =>
        if endi + 1 = cs.length then .error .errMissingPort
        else if endi + 1 = i then
          if firstIdxOf '[' (cs.drop 1) ≠ none then .error .errUnexpectedBracket
          else if firstIdxOf ']' (cs.drop (endi + 1)) ≠ none then .error .errUnexpectedBracket
          else .ok (String.mk ((cs.drop 1).take (endi - 1)), String.mk (cs.drop (i + 1)))
        else if cs.getD (endi + 1) ' ' = ':' then .error .errTooManyColons
        else .error .errMissingPort
    else
      if firstIdxOf ':' (cs.take i) ≠ none then .error .errTooManyColons
      else if firstIdxOf '[' cs ≠ none then .error .errUnexpectedBracket
      else if firstIdxOf ']' cs ≠ none then .error .errUnexpectedBracket
      else .ok (String.mk (cs.take i), String.mk (cs.drop (i + 1)))

/-- The `SetDeadline` actions performed for a context: one if the context
carries a deadline, none otherwise. -/
def dlEvents (ctx : Context) : List Event :=
  match ctx.deadline with
  | some d => [Event.setDeadline d]
  | none => []

/-- The named return values of `sendQueryQUIC`: `(stream, t0, rawQuery,
err)`.  On an early `return` the unassigned results keep their zero
values, as in Go. -/
structure SendOut where
  stream : Option QUICStream
  t0 : Nat
  rawQuery : List Nat
  err : Option GoError
  deriving DecidableEq, Repr

/-- Embedding of `Transport.sendQueryQUIC`: resolve the UDP address, bind
an ephemeral UDP socket, build the TLS config from `SplitHostPort`, set
the socket deadline from the context if present, force the message ID to
0, pack, log, dial, open a stream, write the raw query and close the
write side (both results discarded).  Returns the named results, the
final state of the (mutated) query message, and the trace of external
actions. -/
def sendQueryQUIC (env : Env) (ctx : Context) (addr : ServerAddr) (query : DNSMsg) :
    SendOut × DNSMsg × List Event :=
  match env.resolveUDPAddr with
  | .error e => (⟨none, 0, [], some e⟩, query, [.resolveUDPAddr "udp" addr.Address])
  | .ok udpAddr =>
    match env.listenUDP with
    | .error e => (⟨none, 0, [], some e⟩, query,
        [.resolveUDPAddr "udp" addr.Address, .listenUDP])
    | .ok _ =>
      match splitHostPort addr.Address with
      | .error e => (⟨none, 0, [], some e⟩, query,
          [.resolveUDPAddr "udp" addr.Address, .listenUDP])
      | .ok (hostname, _) =>
        let tlsConfig : TLSConfig := { NextProtos := ["doq"], ServerName := hostname }
        let tr2 := [Event.resolveUDPAddr "udp" addr.Address, Event.listenUDP] ++
          dlEvents ctx
        let query := { query with Id := 0 }
        match query.pack with
        | .error e => (⟨none, 0, [], some e⟩, query, tr2)
        | .ok rawQuery =>
          let t0 := env.now
          let tr3 := tr2 ++ [Event.logQuery rawQuery]
          match env.dial with
          | .error e => (⟨none, t0, rawQuery, some e⟩, query,
              tr3 ++ [.dial udpAddr tlsConfig])
          | .ok _ =>
            match env.openStream with
            | .error e => (⟨none, t0, rawQuery, some e⟩, query,
                tr3 ++ [.dial udpAddr tlsConfig, .openStream])
            | .ok stream =>
              (⟨some stream, t0, rawQuery, none⟩, query,
                tr3 ++ [.dial udpAddr tlsConfig, .openStream,
                  .streamWrite rawQuery, .streamClose])

/-- The 1024-byte buffer after `io.ReadFull(stream, buffer)`: the stream's
bytes, truncated to 1024, with the rest of the buffer still holding the
zeros `make` initialized it to. -/
def readFullBuf (env : Env) : List Nat :=
  env.streamData.take 1024 ++ List.replicate (1024 - env.streamData.length) 0

/-- Embedding of `Transport.recvResponseQUIC`: allocate a 1024-byte
buffer, `io.ReadFull` into it with both results discarded, and `Unpack`
the whole buffer.  `unpack` stands for the external DNS library. -/
def recvResponseQUIC (unpack : List Nat → Except GoError DNSMsg) (env : Env) :
    Except GoError DNSMsg × List Event :=
  let buffer := readFullBuf env
  match unpack buffer with
  | .error e => (.error e, [Event.readFull 1024])
  | .ok resp => (.ok resp, [Event.readFull 1024])

/-- Embedding of `Transport.queryQUIC`: fail immediately with the
context's error if it is already done, otherwise send the query and, if
that succeeded, receive the response. -/
def queryQUIC (unpack : List Nat → Except GoError DNSMsg) (env : Env) (ctx : Context)
    (addr : ServerAddr) (query : DNSMsg) :
    Except GoError DNSMsg × DNSMsg × List Event :=
  match ctx.err with
  | some e => (.error e, query, [])
  | none =>
    let s := sendQueryQUIC env ctx addr query
    match s.1.err with
    | some e => (.error e, s.2.1, s.2.2)
    | none =>
      let r := recvResponseQUIC unpack env
      (r.1, s.2.1, s.2.2 ++ r.2)

/-- Modelled from the spec: the response reader §4.5/§9 require, which is
missing from the source — read exactly a 2-octet big-endian length from
the stream, then exactly that many subsequent bytes, and parse only those
bytes as the DNS message. -/
def recvResponseSpecModel (unpack : List Nat → Except GoError DNSMsg) (env : Env) :
    Except GoError DNSMsg :=
  match env.streamData with
  | b0 :: b1 :: rest =>
    let n := b0 * 256 + b1
    if rest.length < n then .error .errRead
    else unpack (rest.take n)
  | _ => .error .errRead

/-- The message ID of a successful result, for stating divergences. -/
def resultId : Except GoError DNSMsg → Option Nat
  | .ok m => some m.Id
  | .error _ => none

/-! Concrete fixtures used by witnesses and counterexamples. -/

/-- A concrete server address. -/
def addrEx : ServerAddr := ⟨"dns.example.com:853"⟩

/-- An environment in which every external call succeeds.  The stream
yields a response framed as RFC 9250 requires: the 2-octet big-endian
length 12, then a 12-octet DNS message whose ID octets are 18 and 52
(ID 4660). -/
def envOK : Env :=
  { resolveUDPAddr := .ok ⟨"93.184.216.34", 853⟩
    listenUDP := .ok ()
    dial := .ok ()
    openStream := .ok ⟨1⟩
    writeRes := (14, none)
    closeErr := none
    streamData := [0, 12, 18, 52, 0, 0, 0, 0, 0, 0, 0, 0, 0, 0]
    readErr := none
    now := 5 }

/-- A context that is not done and has no deadline. -/
def ctxNone : Context := ⟨none, none⟩

/-- A context that is already canceled. -/
def ctxDone : Context := ⟨some .errCanceled, some 7⟩

/-- A query message with a nonzero caller-supplied ID that serializes. -/
def queryEx : DNSMsg := ⟨4660, [1, 2], true⟩

/-- A query message that fails to serialize. -/
def queryBad : DNSMsg := ⟨4660, [1, 2], false⟩

/-- The all-success environment, except that the stream write and the
stream close both report errors. -/
def envW : Env := { envOK with writeRes := (0, some .errWrite), closeErr := some .errClose }

/-- The all-success environment, except that the QUIC dial fails. -/
def envDialFail : Env := { envOK with dial := .error .errDial }

/-- A context that is not done and carries deadline 99. -/
def ctxDl : Context := ⟨none, some 99⟩

/-- Whether an event is a stream write. -/
def Event.isWriteEvent : Event → Bool
  | .streamWrite _ => true
  | _ => false

/-- Whether an event closes the UDP socket or the QUIC connection. -/
def Event.isConnClose : Event → Bool
  | .udpConnClose => true
  | .quicConnClose => true
  | _ => false

/-! Theorems settling the claims. -/

/-- C3: a query called with an already canceled or expired context
returns immediately with that context's error, performs no external
action at all (empty trace: no resolution, socket creation, dial or
stream I/O), and leaves the query message untouched. -/
theorem queryQUIC_fast_fail_on_done_context
    (unpack : List Nat → Except GoError DNSMsg) (env : Env) (ctx : Context)
    (addr : ServerAddr) (query : DNSMsg) (e : GoError) (h : ctx.err = some e) :
    queryQUIC unpack env ctx addr query = (.error e, query, []) := by
  simp [queryQUIC, h]

/-- Witness for C3 at a concrete canceled context. -/
theorem queryQUIC_fast_fail_on_done_context_witness :
    ctxDone.err = some GoError.errCanceled ∧
    queryQUIC unpackHeader envOK ctxDone addrEx queryEx =
      (.error GoError.errCanceled, queryEx, []) :=
  ⟨rfl, queryQUIC_fast_fail_on_done_context unpackHeader envOK ctxDone addrEx queryEx
    GoError.errCanceled rfl⟩

/-- C9: the response phase ignores the read outcome entirely — its result
is unchanged under any read error, it always parses the zero-padded
1024-byte buffer, and therefore the only error it can return is the one
`Unpack` produces on that buffer. -/
theorem recvResponseQUIC_read_error_discarded
    (unpack : List Nat → Except GoError DNSMsg) (env : Env) :
    (∀ e, recvResponseQUIC unpack { env with readErr := e } =
      recvResponseQUIC unpack env)
    ∧ (recvResponseQUIC unpack env).1 = unpack (readFullBuf env)
    ∧ (readFullBuf env).length = 1024 := by
  refine ⟨fun e => rfl, ?_, ?_⟩
  · rcases h : unpack (readFullBuf env) with e | m <;> simp [recvResponseQUIC, h]
  · simp [readFullBuf]
    omega

/-- C1 (defect witness): on an RFC 9250 framed response (2-octet length
12 followed by a 12-octet message with ID 4660), the code parses the full
fixed 1024-byte buffer, so the length-prefix octets are misread as the
message ID (yielding 12), while the reader the spec requires parses
exactly the 12 framed octets and recovers ID 4660. -/
theorem recvResponseQUIC_ignores_doq_framing :
    resultId (recvResponseQUIC unpackHeader envOK).1 = some 12 ∧
    resultId (recvResponseSpecModel unpackHeader envOK) = some 4660 ∧
    (readFullBuf envOK).length = 1024 ∧ envOK.streamData.length = 14 := by
  set_option maxRecDepth 10000 in decide

/-- C2: whenever the send phase succeeds, the serialized query bytes it
produced (and wrote to the stream) start with two zero ID octets,
whatever ID the caller supplied. -/
theorem sendQueryQUIC_wire_id_zero (env : Env) (ctx : Context) (addr : ServerAddr)
    (query : DNSMsg) (h : (sendQueryQUIC env ctx addr query).1.err = none) :
    (sendQueryQUIC env ctx addr query).1.rawQuery.take 2 = [0, 0] ∧
    Event.streamWrite (sendQueryQUIC env ctx addr query).1.rawQuery ∈
      (sendQueryQUIC env ctx addr query).2.2 := by
  obtain ⟨r, l, d, o, w, c, sd, re, n⟩ := env
  obtain ⟨qid, qbody, qok⟩ := query
  rcases r with e | ua <;> rcases l with e2 | u <;>
    rcases hsp : splitHostPort addr.Address with e3 | ⟨host, port⟩ <;>
    cases qok <;> rcases d with e4 | u2 <;> rcases o with e5 | st <;>
    simp_all [sendQueryQUIC, DNSMsg.pack]

/-- Witness for C2: caller supplies ID 4660, yet the wire bytes start
with two zero octets. -/
theorem sendQueryQUIC_wire_id_zero_witness :
    queryEx.Id = 4660 ∧ (sendQueryQUIC envOK ctxNone addrEx queryEx).1.err = none ∧
    ((sendQueryQUIC envOK ctxNone addrEx queryEx).1.rawQuery.take 2 = [0, 0] ∧
      Event.streamWrite (sendQueryQUIC envOK ctxNone addrEx queryEx).1.rawQuery ∈
        (sendQueryQUIC envOK ctxNone addrEx queryEx).2.2) :=
  ⟨rfl, by decide, sendQueryQUIC_wire_id_zero envOK ctxNone addrEx queryEx (by decide)⟩

/-- C10: once address resolution, socket binding and host:port splitting
have succeeded, the caller's message has its Id field equal to 0 in the
returned (mutated) message, whatever the outcome of the remaining
steps. -/
theorem sendQueryQUIC_id_overwrite_persists (env : Env) (ctx : Context)
    (addr : ServerAddr) (query : DNSMsg) (ua : UDPAddr) (host port : String)
    (h1 : env.resolveUDPAddr = .ok ua) (h2 : env.listenUDP = .ok ())
    (h3 : splitHostPort addr.Address = .ok (host, port)) :
    (sendQueryQUIC env ctx addr query).2.1.Id = 0 := by
  obtain ⟨r, l, d, o, w, c, sd, re, n⟩ := env
  obtain ⟨qid, qbody, qok⟩ := query
  simp only at h1 h2
  subst h1 h2
  cases qok <;> rcases d with e4 | u2 <;> rcases o with e5 | st <;>
    simp_all [sendQueryQUIC, DNSMsg.pack]

/-- Witness for C10: the dial fails, the operation errors, and the
caller's message still ends with Id 0. -/
theorem sendQueryQUIC_id_overwrite_persists_witness :
    queryEx.Id = 4660 ∧
    (sendQueryQUIC envDialFail ctxNone addrEx queryEx).1.err = some GoError.errDial ∧
    (sendQueryQUIC envDialFail ctxNone addrEx queryEx).2.1.Id = 0 :=
  ⟨rfl, by decide,
    sendQueryQUIC_id_overwrite_persists envDialFail ctxNone addrEx queryEx
      ⟨"93.184.216.34", 853⟩ "dns.example.com" "853" rfl rfl (by decide)⟩

/-- C5: every QUIC dial performed by the send phase uses TLS parameters
whose ALPN list is exactly the single token doq and whose server name is
the hostname component of the server address. -/
theorem sendQueryQUIC_dial_tls_doq (env : Env) (ctx : Context) (addr : ServerAddr)
    (query : DNSMsg) (host port : String) (ua : UDPAddr) (tls : TLSConfig)
    (h3 : splitHostPort addr.Address = .ok (host, port))
    (hm : Event.dial ua tls ∈ (sendQueryQUIC env ctx addr query).2.2) :
    tls.NextProtos = ["doq"] ∧ tls.ServerName = host := by
  obtain ⟨r, l, d, o, w, c, sd, re, n⟩ := env
  obtain ⟨qid, qbody, qok⟩ := query
  obtain ⟨cerr, cdl⟩ := ctx
  rcases r with e | ua2 <;> rcases l with e2 | u <;> cases qok <;>
    rcases cdl with _ | dd <;> rcases d with e4 | u2 <;> rcases o with e5 | st <;>
    simp_all [sendQueryQUIC, DNSMsg.pack, dlEvents]

/-- Witness for C5: at address dns.example.com:853 the split yields
hostname dns.example.com, and the performed dial carries the doq ALPN
token with that server name. -/
theorem sendQueryQUIC_dial_tls_doq_witness :
    splitHostPort addrEx.Address = .ok ("dns.example.com", "853") ∧
    ((["doq"] : List String) = ["doq"] ∧
      ("dns.example.com" : String) = "dns.example.com") :=
  ⟨by decide,
    sendQueryQUIC_dial_tls_doq envOK ctxNone addrEx queryEx "dns.example.com" "853"
      ⟨"93.184.216.34", 853⟩ ⟨["doq"], "dns.example.com"⟩ (by decide) (by decide)⟩

/-- C6: once the socket is bound (resolution, binding and splitting
succeeded), the trace starts with resolution and binding, followed by
exactly the deadline events of the context — one `SetDeadline` with the
context's deadline if it has one, none otherwise — and no `SetDeadline`
occurs anywhere later, hence any deadline is applied to the fresh socket
before the QUIC dial. -/
theorem sendQueryQUIC_deadline_applied_before_dial (env : Env) (ctx : Context)
    (addr : ServerAddr) (query : DNSMsg) (ua : UDPAddr) (host port : String)
    (h1 : env.resolveUDPAddr = .ok ua) (h2 : env.listenUDP = .ok ())
    (h3 : splitHostPort addr.Address = .ok (host, port)) :
    ∃ rest, (sendQueryQUIC env ctx addr query).2.2 =
        Event.resolveUDPAddr "udp" addr.Address :: Event.listenUDP ::
          (dlEvents ctx ++ rest)
      ∧ ∀ d : Nat, Event.setDeadline d ∉ rest := by
  obtain ⟨r, l, d, o, w, c, sd, re, n⟩ := env
  obtain ⟨qid, qbody, qok⟩ := query
  simp only at h1 h2
  subst h1 h2
  cases qok with
  | false =>
    exact ⟨[], by simp [sendQueryQUIC, DNSMsg.pack, h3], by simp⟩
  | true =>
    rcases d with e4 | u2
    · exact ⟨[Event.logQuery (0 :: 0 :: qbody), Event.dial ua ⟨["doq"], host⟩],
        by simp [sendQueryQUIC, DNSMsg.pack, h3], by simp⟩
    · rcases o with e5 | st
      · exact ⟨[Event.logQuery (0 :: 0 :: qbody), Event.dial ua ⟨["doq"], host⟩,
          Event.openStream],
          by simp [sendQueryQUIC, DNSMsg.pack, h3], by simp⟩
      · exact ⟨[Event.logQuery (0 :: 0 :: qbody), Event.dial ua ⟨["doq"], host⟩,
          Event.openStream, Event.streamWrite (0 :: 0 :: qbody), Event.streamClose],
          by simp [sendQueryQUIC, DNSMsg.pack, h3], by simp⟩

/-- Witness for C6 at a context with deadline 99. -/
theorem sendQueryQUIC_deadline_applied_before_dial_witness :
    ctxDl.deadline = some 99 ∧
    ∃ rest, (sendQueryQUIC envOK ctxDl addrEx queryEx).2.2 =
        Event.resolveUDPAddr "udp" addrEx.Address :: Event.listenUDP ::
          (dlEvents ctxDl ++ rest)
      ∧ ∀ d : Nat, Event.setDeadline d ∉ rest :=
  ⟨rfl, sendQueryQUIC_deadline_applied_before_dial envOK ctxDl addrEx queryEx
    ⟨"93.184.216.34", 853⟩ "dns.example.com" "853" rfl rfl (by decide)⟩

/-- C7 counterexample: a query that fails to serialize still causes
address resolution and UDP socket creation — both network steps — before
the encoding error is returned, refuting the claim that no network step
happens on a serialization failure. -/
theorem sendQueryQUIC_pack_fail_after_network :
    (sendQueryQUIC envOK ctxNone addrEx queryBad).1.err = some GoError.errPack ∧
    Event.resolveUDPAddr "udp" addrEx.Address ∈
      (sendQueryQUIC envOK ctxNone addrEx queryBad).2.2 ∧
    Event.listenUDP ∈ (sendQueryQUIC envOK ctxNone addrEx queryBad).2.2 ∧
    (Event.resolveUDPAddr "udp" addrEx.Address).isNetwork = true ∧
    Event.listenUDP.isNetwork = true := by
  decide

/-- C7 amended: when the message fails to serialize (after resolution,
binding and splitting succeeded), the operation fails with the encoding
error and performs no QUIC-level network step — no dial, no stream open,
no stream I/O — though resolution and socket binding already happened. -/
theorem sendQueryQUIC_pack_fail_stops_quic (env : Env) (ctx : Context)
    (addr : ServerAddr) (query : DNSMsg) (ua : UDPAddr) (host port : String)
    (h1 : env.resolveUDPAddr = .ok ua) (h2 : env.listenUDP = .ok ())
    (h3 : splitHostPort addr.Address = .ok (host, port))
    (h4 : query.packOk = false) :
    (sendQueryQUIC env ctx addr query).1.err = some GoError.errPack ∧
    ∀ ev ∈ (sendQueryQUIC env ctx addr query).2.2, ev.isQUICNetwork = false := by
  obtain ⟨r, l, d, o, w, c, sd, re, n⟩ := env
  obtain ⟨qid, qbody, qok⟩ := query
  obtain ⟨cerr, cdl⟩ := ctx
  simp only at h1 h2 h4
  subst h1 h2 h4
  rcases cdl with _ | dd <;>
    simp [sendQueryQUIC, DNSMsg.pack, h3, dlEvents, Event.isQUICNetwork]

/-- Witness for the amended C7 at a concrete non-serializable query. -/
theorem sendQueryQUIC_pack_fail_stops_quic_witness :
    queryBad.packOk = false ∧
    ((sendQueryQUIC envOK ctxNone addrEx queryBad).1.err = some GoError.errPack ∧
      ∀ ev ∈ (sendQueryQUIC envOK ctxNone addrEx queryBad).2.2,
        ev.isQUICNetwork = false) :=
  ⟨rfl, sendQueryQUIC_pack_fail_stops_quic envOK ctxNone addrEx queryBad
    ⟨"93.184.216.34", 853⟩ "dns.example.com" "853" rfl rfl (by decide) rfl⟩

/-- C4 counterexample: both the stream write and the stream close report
errors, yet the send phase returns no error — and the whole query
operation even returns a parsed response — refuting the claim that
write/close errors are reported to the caller. -/
theorem sendQueryQUIC_write_close_error_swallowed :
    envW.writeRes.2 = some GoError.errWrite ∧ envW.closeErr = some GoError.errClose ∧
    (sendQueryQUIC envW ctxNone addrEx queryEx).1.err = none ∧
    Event.streamWrite [0, 0, 1, 2] ∈ (sendQueryQUIC envW ctxNone addrEx queryEx).2.2 ∧
    Event.streamClose ∈ (sendQueryQUIC envW ctxNone addrEx queryEx).2.2 ∧
    resultId (queryQUIC unpackHeader envW ctxNone addrEx queryEx).1 = some 12 := by
  set_option maxRecDepth 10000 in decide

/-- C4 amended: errors from the stream write and from closing the write
side are discarded — the result of the send phase is unchanged under any
write/close outcome — and neither the write nor the close is retried
(each occurs at most once in the trace). -/
theorem sendQueryQUIC_result_ignores_write_close (env : Env) (ctx : Context)
    (addr : ServerAddr) (query : DNSMsg) (w : Nat × Option GoError)
    (c : Option GoError) :
    sendQueryQUIC { env with writeRes := w, closeErr := c } ctx addr query
      = sendQueryQUIC env ctx addr query
    ∧ (sendQueryQUIC env ctx addr query).2.2.countP (fun ev => ev.isWriteEvent) ≤ 1
    ∧ List.count Event.streamClose (sendQueryQUIC env ctx addr query).2.2 ≤ 1 := by
  obtain ⟨r, l, d, o, w0, c0, sd, re, n⟩ := env
  obtain ⟨qid, qbody, qok⟩ := query
  obtain ⟨cerr, cdl⟩ := ctx
  refine ⟨rfl, ?_, ?_⟩ <;>
    (rcases r with e | ua2 <;> rcases l with e2 | u <;>
      rcases hsp : splitHostPort addr.Address with e3 | ⟨host, port⟩ <;> cases qok <;>
      rcases cdl with _ | dd <;> rcases d with e4 | u2 <;> rcases o with e5 | st <;>
      simp_all [sendQueryQUIC, DNSMsg.pack, dlEvents, Event.isWriteEvent])

/-- Helper: the response phase always performs exactly one fixed-size
read. -/
lemma recvResponseQUIC_trace (unpack : List Nat → Except GoError DNSMsg) (env : Env) :
    (recvResponseQUIC unpack env).2 = [Event.readFull 1024] := by
  rcases h : unpack (readFullBuf env) with e | m <;> simp [recvResponseQUIC, h]

/-- Helper: every event of a full query execution is either an event of
the send phase or the fixed-size read of the response phase. -/
lemma mem_queryQUIC_trace (unpack : List Nat → Except GoError DNSMsg) (env : Env)
    (ctx : Context) (addr : ServerAddr) (query : DNSMsg) (ev : Event)
    (h : ev ∈ (queryQUIC unpack env ctx addr query).2.2) :
    ev ∈ (sendQueryQUIC env ctx addr query).2.2 ∨ ev = Event.readFull 1024 := by
  unfold queryQUIC at h
  rcases hc : ctx.err with _ | e
  · simp only [hc] at h
    rcases he : (sendQueryQUIC env ctx addr query).1.err with _ | e2
    · simp only [he, List.mem_append, recvResponseQUIC_trace, List.mem_singleton] at h
      tauto
    · simp only [he] at h
      exact Or.inl h
  · simp [hc] at h

/-- Helper: the send phase never closes the UDP socket or the QUIC
connection. -/
lemma sendQueryQUIC_no_conn_close (env : Env) (ctx : Context) (addr : ServerAddr)
    (query : DNSMsg) :
    ∀ ev ∈ (sendQueryQUIC env ctx addr query).2.2, ev.isConnClose = false := by
  obtain ⟨r, l, d, o, w, c, sd, re, n⟩ := env
  obtain ⟨qid, qbody, qok⟩ := query
  obtain ⟨cerr, cdl⟩ := ctx
  rcases r with e | ua2 <;> rcases l with e2 | u <;>
    rcases hsp : splitHostPort addr.Address with e3 | ⟨host, port⟩ <;> cases qok <;>
    rcases cdl with _ | dd <;> rcases d with e4 | u2 <;> rcases o with e5 | st <;>
    simp_all [sendQueryQUIC, DNSMsg.pack, dlEvents, Event.isConnClose]

/-- C8 (defect witness): no execution of the query operation ever closes
the ephemeral UDP socket or the QUIC connection — the trace of any run,
terminal state included, contains no socket close and no connection
close. -/
theorem queryQUIC_never_closes_socket_or_conn
    (unpack : List Nat → Except GoError DNSMsg) (env : Env) (ctx : Context)
    (addr : ServerAddr) (query : DNSMsg) :
    Event.udpConnClose ∉ (queryQUIC unpack env ctx addr query).2.2 ∧
    Event.quicConnClose ∉ (queryQUIC unpack env ctx addr query).2.2 := by
  constructor <;> intro h <;>
    rcases mem_queryQUIC_trace unpack env ctx addr query _ h with h2 | h2
  · have := sendQueryQUIC_no_conn_close env ctx addr query _ h2
    simp [Event.isConnClose] at this
  · simp at h2
  · have := sendQueryQUIC_no_conn_close env ctx addr query _ h2
    simp [Event.isConnClose] at this
  · simp at h2

end DnsCore
